import Mathlib

/-!
Verification development for the `judah` ETL library.

Each section shallowly embeds one part of the Python source
(`src/judah/...`) as executable Lean definitions and proves the
properties claimed about it. Python `int` is modelled by `Int`/`Nat`,
Python `dict` by ordered association lists, Python exceptions by
`Except`, and Python generators by the list of items they yield.
-/

namespace Judah

/-! ## Records

A `Record` models a Python `dict` moving through the pipeline: an
ordered association list from field name to a dynamically typed value
(`src/judah`'s records hold strings, ints, and `None`). `lookup` is
`dict.get` (first binding wins, as keys are unique in a Python dict),
`containsKey` is the `in` operator. -/

inductive Value where
  | vint (n : Int)
  | vstr (s : String)
  | vnone
  deriving DecidableEq, Repr

abbrev Record := List (String × Value)

def Record.lookup (r : Record) (k : String) : Option Value :=
  match r with
  | [] => none
  | (k', v) :: rest => if k' = k then some v else Record.lookup rest k

def Record.containsKey (r : Record) (k : String) : Bool :=
  match r with
  | [] => false
  | (k', _) :: rest => k' = k || Record.containsKey rest k

/-- setField models `dict[k] = v` / `setattr`: overwrite the binding
for `k` in place if present, else append a new binding. -/
def Record.setField (r : Record) (k : String) (v : Value) : Record :=
  match r with
  | [] => [(k, v)]
  | (k', v') :: rest =>
      if k' = k then (k', v) :: rest else (k', v') :: Record.setField rest k v

/-! ## Quarter arithmetic (`src/judah/utils/dates.py`, `update_quarter_year_tuple`)

The Python code computes
`years_after_year_1 = int(new_total / 4)` — float division truncated
toward zero, which for `|new_total| < 2^52` is exactly `Int.tdiv` —
while `new_total % 4` is Python's floor modulo, `Int.emod` (with a
positive modulus). -/

def update_quarter_year_tuple (quarter_year_tuple : Int × Int)
    (quarters_to_increment_by : Int) (quarters_to_decrement_by : Int) : Int × Int :=
  let quarter := quarter_year_tuple.1
  let year := quarter_year_tuple.2
  let net_quarters_delta := quarters_to_increment_by - quarters_to_decrement_by
  let number_of_quarters_per_year : Int := 4
  -- convert (quarter, year) tuple to quarters since year 1, quarter 1
  let total_quarters_since_year_1_quarter_1 :=
    (quarter - 1) + ((year - 1) * number_of_quarters_per_year)
  let new_total := total_quarters_since_year_1_quarter_1 + net_quarters_delta
  let years_after_year_1 := Int.tdiv new_total number_of_quarters_per_year
  let updated_year := 1 + years_after_year_1
  let quarters_after_quarter_1 := Int.emod new_total number_of_quarters_per_year
  let updated_quarter := 1 + quarters_after_quarter_1
  (updated_quarter, updated_year)

/-- linearizeQuarterYear is the "quarters since year 1 quarter 1"
measure the spec describes for a `(quarter, year)` pair. -/
def linearizeQuarterYear (p : Int × Int) : Int :=
  (p.1 - 1) + (p.2 - 1) * 4

/-! ## Calendar dates

Models Python's `datetime.date` (and the date part of `datetime`):
a `(year, month, day)` triple. `date.replace(...)` validates all the
resulting fields — year in `MINYEAR..MAXYEAR = 1..9999`, month in
`1..12`, day in `1..days-in-month` — and raises `ValueError`
otherwise. -/

def isLeapYear (y : Nat) : Bool :=
  (y % 4 = 0 && y % 100 != 0) || y % 400 = 0

def daysInMonth (y : Nat) (m : Nat) : Nat :=
  match m with
  | 1 => 31
  | 2 => if isLeapYear y then 29 else 28
  | 3 => 31
  | 4 => 30
  | 5 => 31
  | 6 => 30
  | 7 => 31
  | 8 => 31
  | 9 => 30
  | 10 => 31
  | 11 => 30
  | 12 => 31
  | _ => 0

structure CalDate where
  year : Nat
  month : Nat
  day : Nat
  deriving DecidableEq, Repr

/-- isValidDate captures the constructor checks of `datetime.date`:
`MINYEAR (1) <= year <= MAXYEAR (9999)`, `1 <= month <= 12`,
`1 <= day <= days_in_month(year, month)`. -/
def CalDate.isValidDate (d : CalDate) : Bool :=
  1 ≤ d.year && d.year ≤ 9999 && 1 ≤ d.month && d.month ≤ 12 &&
    1 ≤ d.day && d.day ≤ daysInMonth d.year d.month

/-- replaceMonth models `d.replace(month=m)`: `none` is the raised
`ValueError`. -/
def CalDate.replaceMonth (d : CalDate) (m : Nat) : Option CalDate :=
  let candidate : CalDate := ⟨d.year, m, d.day⟩
  if candidate.isValidDate then some candidate else none

/-- replaceYearMonth models `d.replace(year=y, month=m)`. -/
def CalDate.replaceYearMonth (d : CalDate) (y m : Nat) : Option CalDate :=
  let candidate : CalDate := ⟨y, m, d.day⟩
  if candidate.isValidDate then some candidate else none

/-- ValueErr stands for a Python `ValueError` escaping a function. -/
inductive ValueErr where
  | valueError
  deriving DecidableEq, Repr

/-- add_month_to_datetime_but_maintain_day embeds
`src/judah/utils/dates.py:142-149`: try `replace(month=month+1)`; on
`ValueError`, if the month is 12 return `replace(year=year+1, month=1)`
(whose own `ValueError`, possible only at the maximum year 9999, is not
caught); otherwise fall through to `return None`. -/
def add_month_to_datetime_but_maintain_day (datetime_value : CalDate) :
    Except ValueErr (Option CalDate) :=
  match datetime_value.replaceMonth (datetime_value.month + 1) with
  | some d => .ok (some d)
  | none =>
      if datetime_value.month = 12 then
        match datetime_value.replaceYearMonth (datetime_value.year + 1) 1 with
        | some d => .ok (some d)
        | none => .error .valueError
      else
        .ok none

/-! ## Database destination upsert
(`src/judah/destinations/database/model.py:108-132`, `SlimDatabaseBaseModel.upsert`)

A model is abstracted by its list of primary-key column names, the
table by the list of its rows (each a `Record`), and the session query
by a first-match scan in row order. The code computes
`is_data_with_primary_key = any(column.key in data for column in primary_key_columns)`
— `any`, not `all` — and, if true, eagerly evaluates
`data[column.key]` for every primary-key column while building the
filter, raising `KeyError` when one is missing. -/

inductive UpsertErr where
  | keyError
  deriving DecidableEq, Repr

/-- lookupPkValues models building the filter
`and_(*(column == data[column.key] for column in primary_key_columns))`:
it evaluates `data[column.key]` for each primary-key column in order
and raises `KeyError` (`none`) on the first missing one. -/
def lookupPkValues (data : Record) : List String → Option (List (String × Value))
  | [] => some []
  | c :: rest =>
      match data.lookup c with
      | none => none
      | some v => (lookupPkValues data rest).map (fun l => (c, v) :: l)

/-- rowMatchesPk models the filter condition applied to one stored
row: every primary-key column of the row equals the value the incoming
record carries for it. -/
def rowMatchesPk (row : Record) (pairs : List (String × Value)) : Bool :=
  pairs.all (fun p => decide (row.lookup p.1 = some p.2))

/-- applyUpdate models `record.update(session=session, **data)`:
`setattr` on the stored row for every key of the incoming record, in
the record's order. -/
def applyUpdate (row : Record) (data : Record) : Record :=
  data.foldl (fun r p => r.setField p.1 p.2) row

/-- updateFirstMatch models `.first()` followed by `update`: the first
row matching the primary-key filter is updated in place; the rest of
the table is untouched. -/
def updateFirstMatch (table : List Record) (pairs : List (String × Value))
    (data : Record) : List Record :=
  match table with
  | [] => []
  | row :: rest =>
      if rowMatchesPk row pairs then applyUpdate row data :: rest
      else row :: updateFirstMatch rest pairs data

/-- upsert embeds `SlimDatabaseBaseModel.upsert`, returning the new
table contents together with the echoed input record, or the raised
`KeyError`. -/
def upsert (primary_key : List String) (table : List Record) (data : Record) :
    Except UpsertErr (List Record × Record) :=
  let is_data_with_primary_key := primary_key.any (fun c => data.containsKey c)
  if is_data_with_primary_key then
    match lookupPkValues data primary_key with
    | none => .error .keyError
    | some pairs =>
        if table.any (fun row => rowMatchesPk row pairs) then
          .ok (updateFirstMatch table pairs data, data)
        else
          .ok (table ++ [data], data)
  else
    .ok (table ++ [data], data)

/-! ## Controller transform stage
(`src/judah/controllers/base/__init__.py:81-118`, `BaseController.transform`)

The running value threaded through the transformer chain is either the
absent placeholder `None`, a dict, or a list (a prior transformer may
return a list). A transformer's `run` is an abstract function that may
raise; exceptions are classified fatal / known / unknown per the
Controller taxonomy. `transform` is a generator; we model it as the
list of items it yields plus a flag for a propagated fatal
exception. -/

inductive TVal where
  | vnone
  | vrec (r : Record)
  | vlist (l : List TVal)
  deriving Repr

inductive ExcClass where
  | fatalExc
  | knownExc
  | unknownExc
  deriving DecidableEq, Repr

/-- applyTransformerToList models the inner `for datum in transformed_data`
loop: apply the transformer per element, spreading a returned list into
the output and appending any other result. -/
def applyTransformerToList (t : TVal → Except ExcClass TVal) :
    List TVal → Except ExcClass (List TVal)
  | [] => .ok []
  | d :: rest => do
      let x ← t d
      let xs ← applyTransformerToList t rest
      match x with
      | .vlist l => return l ++ xs
      | other => return other :: xs

/-- runTransformerChain models the `for transformer in cls.transformer_classes`
loop over the running value. -/
def runTransformerChain (ts : List (TVal → Except ExcClass TVal)) (v : TVal) :
    Except ExcClass TVal :=
  match ts with
  | [] => .ok v
  | t :: rest =>
      match v with
      | .vlist l => do
          let l' ← applyTransformerToList t l
          runTransformerChain rest (.vlist l')
      | other => do
          let v' ← t other
          runTransformerChain rest v'

/-- transform embeds `BaseController.transform`: when the input is
absent one absent placeholder is yielded first, and the absent value
still flows into the try block; the final chain value is yielded
element-by-element if it is a list, else as a single item; a known
exception yields one absent item, an unknown exception yields nothing
further, a fatal exception propagates (second component `true`). -/
def transform (ts : List (TVal → Except ExcClass TVal)) (data : Option Record) :
    List TVal × Bool :=
  let firstYield : List TVal :=
    match data with
    | none => [TVal.vnone]
    | some _ => []
  let initial : TVal :=
    match data with
    | none => TVal.vnone
    | some r => TVal.vrec r
  match runTransformerChain ts initial with
  | .ok (.vlist l) => (firstYield ++ l, false)
  | .ok v => (firstYield ++ [v], false)
  | .error .fatalExc => (firstYield, true)
  | .error .knownExc => (firstYield ++ [TVal.vnone], false)
  | .error .unknownExc => (firstYield, false)

/-! ## Controller extract loop
(`src/judah/controllers/base/__init__.py:49-78`, `BaseController.extract`)

One loop iteration pulls one cycle from the source; a cycle either
yields records or raises a known / unknown / fatal exception.
`hasSchedule` is `_interval is not None or len(cron_jobs) > 0` — the
negation of the `break` condition. The scheduling wait only spends
time and is not observable here. The loop is modelled with explicit
fuel: `outOfFuel` means the loop was still running after `fuel`
iterations. -/

inductive CycleResult where
  | yields (records : List Record)
  | knownExc
  | unknownExc
  | fatalExc

inductive ExtractStatus where
  | finished
  | outOfFuel
  | raisedFatal
  deriving DecidableEq, Repr

/-- runExtract runs the `while True` body of `extract` for at most
`fuel` iterations, with `source i` the outcome of the cycle pulled at
iteration `i`. On a known exception the failure is logged and the
cycle contributes nothing, on an unknown exception the notifier is
called and the cycle contributes nothing; in both cases the `break` at
line 66-67 is never reached, so the loop continues. Only an
exception-free cycle reaches the `break` check. -/
def runExtract (hasSchedule : Bool) (source : Nat → CycleResult) :
    Nat → Nat → List Record × ExtractStatus
  | _, 0 => ([], .outOfFuel)
  | i, fuel + 1 =>
      match source i with
      | .fatalExc => ([], .raisedFatal)
      | .knownExc => runExtract hasSchedule source (i + 1) fuel
      | .unknownExc => runExtract hasSchedule source (i + 1) fuel
      | .yields rs =>
          if hasSchedule then
            let rest := runExtract hasSchedule source (i + 1) fuel
            (rs ++ rest.1, rest.2)
          else (rs, .finished)

/-! ## Date-based source window
(`src/judah/sources/base/date_based.py`, `DateBasedBaseSource`)

For windowing, only day-granularity shifts of `datetime.date` matter,
so a date is modelled by its ordinal (days since the epoch, an `Int`);
`date + timedelta(days=k)` is ordinal addition. `date.today()` is the
explicit `today` parameter. The query delegate `_query_data_source` is
abstract; `get` returns the list of `(start, end)` windows the
delegate was invoked with, the records yielded, and the new source
state, for one fully consumed call. -/

def update_date (date_to_update : Int) (days_to_increment_by : Int)
    (days_to_decrement_by : Int) : Int :=
  date_to_update + days_to_increment_by - days_to_decrement_by

structure DateSourceState where
  start_date : Option Int
  end_date : Option Int
  default_batch_size_in_days : Int
  deriving DecidableEq, Repr

/-- getNextEndDate embeds `_get_next_end_date`. -/
def getNextEndDate (s : DateSourceState) (today : Int)
    (days_to_increment_by : Int) (days_to_decrement_by : Int) : Int :=
  match s.end_date with
  | some d => update_date d days_to_increment_by days_to_decrement_by
  | none =>
      match s.start_date with
      | some sd =>
          update_date sd (s.default_batch_size_in_days + days_to_increment_by)
            days_to_decrement_by
      | none => update_date today days_to_increment_by days_to_decrement_by

/-- getNextStartDate embeds `_get_next_start_date`. -/
def getNextStartDate (s : DateSourceState) (today : Int)
    (days_to_increment_by : Int) (days_to_decrement_by : Int) : Int :=
  match s.start_date with
  | some d => update_date d days_to_increment_by days_to_decrement_by
  | none =>
      let initial : Int :=
        match s.end_date with
        | some e => e
        | none => today
      update_date initial days_to_increment_by
        (s.default_batch_size_in_days + days_to_decrement_by)

/-- dateSourceGet embeds `DateBasedBaseSource.get`, fully consumed:
compute the window; if the end precedes the start yield nothing and
leave the state alone; otherwise delegate and, only after the
delegate completes, advance `start_date` by
`default_batch_size_in_days`. -/
def dateSourceGet (s : DateSourceState) (today : Int)
    (delegate : Int → Int → List Record) :
    List (Int × Int) × List Record × DateSourceState :=
  let start_date := getNextStartDate s today 0 0
  let end_date := getNextEndDate s today 0 0
  if end_date < start_date then
    ([], [], s)
  else
    let advanced := getNextStartDate s today s.default_batch_size_in_days 0
    ([(start_date, end_date)], delegate start_date end_date,
      { s with start_date := some advanced })

/-! ## REST API source
(`src/judah/sources/rest_api/date_based.py:83-95`,
`DateBasedRestAPISource._query_data_source` with
`_extract_list_from_response`)

A poll's HTTP responses are abstracted as values: `first_response` is
what the initial GET returns and `retry_response` what a second,
post-`_authenticate` GET would return. `requests.Response.ok` is
`status_code < 400`. The parsed JSON body is a `Json` value; `.get` on
a dict returns `null` for a missing key, and iterating a non-list is a
`TypeError` (iterating a string yields its characters). -/

inductive Json where
  | jnull
  | jnum (n : Int)
  | jstr (s : String)
  | jarr (l : List Json)
  | jobj (fields : List (String × Json))

/-- objGet models Python `dict.get(key)`: the value, or `None` when
the key is missing. -/
def objGet (fields : List (String × Json)) (k : String) : Json :=
  match fields with
  | [] => .jnull
  | (k', v) :: rest => if k' = k then v else objGet rest k

inductive QueryErr where
  | requestError (status_code : Nat) (message : String)
  | attributeError
  | typeError
  deriving DecidableEq, Repr

/-- extractListFromResponse embeds `_extract_list_from_response`:
unwrap the body under `response_data_key` when configured (an
`AttributeError` if the body is not a dict), then yield a dict as one
record and anything else element-by-element (`TypeError` when the
value is not iterable). -/
def extractListFromResponse (response_data_key : Option String)
    (body : Json) : Except QueryErr (List Json) :=
  let unwrapped : Except QueryErr Json :=
    match response_data_key with
    | none => .ok body
    | some k =>
        match body with
        | .jobj fields => .ok (objGet fields k)
        | _ => .error .attributeError
  match unwrapped with
  | .error e => .error e
  | .ok (.jobj fields) => .ok [Json.jobj fields]
  | .ok (.jarr l) => .ok l
  | .ok (.jstr s) => .ok (s.data.map (fun c => Json.jstr (String.mk [c])))
  | .ok _ => .error .typeError

structure HttpResponse where
  status_code : Nat
  text : String
  json : Json

/-- isAuthRetryStatus is the `response.status_code in (401, 403, 400)`
test. -/
def isAuthRetryStatus (c : Nat) : Bool :=
  c = 401 || c = 403 || c = 400

/-- restQueryDataSource embeds `_query_data_source` for one poll:
issue one GET; on status 400/401/403 call `_authenticate()` once and
retry the GET exactly once; then either extract from the (possibly
retried) response when it is ok, or raise `RequestError` with its
status code and body text. Returns (number of GETs issued, whether
`_authenticate` was called, the outcome). -/
def restQueryDataSource (response_data_key : Option String)
    (first_response retry_response : HttpResponse) :
    Nat × Bool × Except QueryErr (List Json) :=
  let needs_retry := isAuthRetryStatus first_response.status_code
  let response := if needs_retry then retry_response else first_response
  let get_count := if needs_retry then 2 else 1
  (get_count, needs_retry,
    if response.status_code < 400 then
      extractListFromResponse response_data_key response.json
    else
      .error (.requestError response.status_code response.text))

/-! ## Datetime transformer
(`src/judah/transformers/datetime_transformer.py:15-26`,
`DatetimeTransformer.run`, with `change_datetime_format` from
`src/judah/utils/dates.py:137-139`)

`change_datetime_format` is `strptime(value, old).strftime(new)` and
the transformer uses its class defaults `old = "%m/%d/%Y"`,
`new = "%Y-%m-%d"`, field `"Date"`; the embedding fixes those two
patterns. CPython's `strptime` matches `%m` by the regex
`1[0-2]|0[1-9]|[1-9]`, `%d` by `3[01]|[12]\d|0[1-9]|[1-9]` and `%Y` by
four digits, alternatives tried left to right with backtracking, the
whole string must be consumed, and the parsed numbers must form a real
calendar date; `strftime("%Y-%m-%d")` zero-pads to 4+2+2 digits. -/

def natDigit (n : Nat) : Char := Char.ofNat (48 + n % 10)

/-- monthCandidates lists the ways `%m` (`1[0-2]|0[1-9]|[1-9]`) can
match a front of the input, in regex alternation order, each with the
remaining input. -/
def monthCandidates : List Char → List (Nat × List Char)
  | c1 :: c2 :: rest =>
      (if c1 = '1' ∧ '0' ≤ c2 ∧ c2 ≤ '2' then [(10 + (c2.toNat - 48), rest)] else []) ++
      (if c1 = '0' ∧ '1' ≤ c2 ∧ c2 ≤ '9' then [(c2.toNat - 48, rest)] else []) ++
      (if '1' ≤ c1 ∧ c1 ≤ '9' then [(c1.toNat - 48, c2 :: rest)] else [])
  | [c1] => if '1' ≤ c1 ∧ c1 ≤ '9' then [(c1.toNat - 48, [])] else []
  | [] => []

/-- dayCandidates lists the ways `%d` (`3[01]|[12]\d|0[1-9]|[1-9]`)
can match a front of the input. -/
def dayCandidates : List Char → List (Nat × List Char)
  | c1 :: c2 :: rest =>
      (if c1 = '3' ∧ ('0' ≤ c2 ∧ c2 ≤ '1') then [(30 + (c2.toNat - 48), rest)] else []) ++
      (if ('1' ≤ c1 ∧ c1 ≤ '2') ∧ c2.isDigit then
        [((c1.toNat - 48) * 10 + (c2.toNat - 48), rest)] else []) ++
      (if c1 = '0' ∧ '1' ≤ c2 ∧ c2 ≤ '9' then [(c2.toNat - 48, rest)] else []) ++
      (if '1' ≤ c1 ∧ c1 ≤ '9' then [(c1.toNat - 48, c2 :: rest)] else [])
  | [c1] => if '1' ≤ c1 ∧ c1 ≤ '9' then [(c1.toNat - 48, [])] else []
  | [] => []

/-- yearMatch matches `%Y` (four digits). -/
def yearMatch : List Char → Option (Nat × List Char)
  | a :: b :: c :: d :: rest =>
      if a.isDigit ∧ b.isDigit ∧ c.isDigit ∧ d.isDigit then
        some ((((a.toNat - 48) * 10 + (b.toNat - 48)) * 10 + (c.toNat - 48)) * 10 +
          (d.toNat - 48), rest)
      else none
  | _ => none

/-- tryCandidates models regex backtracking over the alternation
candidates: the first alternative under which the rest of the pattern
succeeds wins. -/
def tryCandidates {α β : Type} (l : List α) (f : α → Option β) : Option β :=
  match l with
  | [] => none
  | a :: rest =>
      match f a with
      | some b => some b
      | none => tryCandidates rest f

/-- parseFromDay matches `%d/%Y` against the input remaining after
`%m/`, requiring the whole input consumed. -/
def parseFromDay (m : Nat) (cs : List Char) : Option (Nat × Nat × Nat) :=
  tryCandidates (dayCandidates cs) (fun p =>
    if p.2.head? = some '/' then
      match yearMatch p.2.tail with
      | some (y, []) => some (m, p.1, y)
      | _ => none
    else none)

/-- parseMDY matches the full `%m/%d/%Y` pattern. -/
def parseMDY (cs : List Char) : Option (Nat × Nat × Nat) :=
  tryCandidates (monthCandidates cs) (fun p =>
    if p.2.head? = some '/' then parseFromDay p.1 p.2.tail else none)

/-- strptime_mdy embeds `datetime.strptime(s, "%m/%d/%Y")`: the regex
match followed by the calendar-validity check of the datetime
constructor; `none` is the raised `ValueError`. -/
def strptime_mdy (s : String) : Option CalDate :=
  match parseMDY s.data with
  | some (m, d, y) =>
      if (CalDate.mk y m d).isValidDate then some ⟨y, m, d⟩ else none
  | none => none

/-- strftime_ymd embeds `.strftime("%Y-%m-%d")` with zero-padded
fields. -/
def strftime_ymd (d : CalDate) : String :=
  ⟨[natDigit (d.year / 1000), natDigit (d.year / 100), natDigit (d.year / 10),
      natDigit d.year, '-', natDigit (d.month / 10), natDigit d.month, '-',
      natDigit (d.day / 10), natDigit d.day]⟩

inductive TransformErr where
  | valueError
  | typeError
  deriving DecidableEq, Repr

/-- change_datetime_format embeds
`datetime.strptime(datetime_value, old).strftime(new)` at the
transformer's default patterns `old = "%m/%d/%Y"`,
`new = "%Y-%m-%d"`. -/
def change_datetime_format (datetime_value : String) : Except TransformErr String :=
  match strptime_mdy datetime_value with
  | some d => .ok (strftime_ymd d)
  | none => .error .valueError

/-- datetimeTransformerRun embeds `DatetimeTransformer.run` with its
class defaults: copy the record; if the `"Date"` field is present and
not `None`, replace it by the reformatted value (`strptime` on a
non-string raises `TypeError`); return the copy. -/
def datetimeTransformerRun (data : Record) : Except TransformErr Record :=
  let data_copy := data
  match data_copy.lookup "Date" with
  | none => .ok data_copy
  | some Value.vnone => .ok data_copy
  | some (Value.vstr s) =>
      match change_datetime_format s with
      | .ok out => .ok (data_copy.setField "Date" (Value.vstr out))
      | .error e => .error e
  | some (Value.vint _) => .error .typeError

/-! ## Cron schedule (`src/judah/utils/cron.py`, `CronType`)

`datetime` values are `(date, hour, minute, second, microsecond)`;
Python compares two aware datetimes of the same timezone by their
field tuples, lexicographically. The claims fix
`timezone_string = "UTC"`, for which the `pytz` localization and the
`astimezone(pytz.UTC)` conversion are the identity, and evaluate the
schedule at a frozen instant, so `datetime.now(tz=pytz.UTC)` and
`date.today()` (local clock assumed on UTC) both come from the single
`now` parameter. Field values are the valid ranges of the `Month`,
`WeekDay` and `Hour` enums and of `time()`, as on the claims'
inputs. -/

structure PyDateTime where
  date : CalDate
  hour : Nat
  minute : Nat
  second : Nat
  microsecond : Nat
  deriving DecidableEq, Repr

structure PyTime where
  hour : Nat
  minute : Nat
  second : Nat
  deriving DecidableEq, Repr

/-- natLexLe compares two equal-length field lists lexicographically,
the way Python compares datetime field tuples. -/
def natLexLe : List Nat → List Nat → Bool
  | [], _ => true
  | _, [] => true
  | a :: as, b :: bs => if a = b then natLexLe as bs else decide (a < b)

def PyDateTime.fieldList (t : PyDateTime) : List Nat :=
  [t.date.year, t.date.month, t.date.day, t.hour, t.minute, t.second, t.microsecond]

/-- le is Python's `a <= b` on two UTC datetimes. -/
def PyDateTime.le (a b : PyDateTime) : Bool :=
  natLexLe a.fieldList b.fieldList

/-- nextDay is the calendar successor, as `date + timedelta(days=1)`
computes it for in-range dates. -/
def CalDate.nextDay (d : CalDate) : CalDate :=
  if d.day < daysInMonth d.year d.month then ⟨d.year, d.month, d.day + 1⟩
  else if d.month < 12 then ⟨d.year, d.month + 1, 1⟩
  else ⟨d.year + 1, 1, 1⟩

def CalDate.addDays (d : CalDate) : Nat → CalDate
  | 0 => d
  | n + 1 => (d.nextDay).addDays n

/-- daysBeforeYear counts the days from 0001-01-01 to the start of
year `y`, as `date.toordinal` does. -/
def daysBeforeYear (y : Nat) : Nat :=
  365 * (y - 1) + (y - 1) / 4 - (y - 1) / 100 + (y - 1) / 400

def daysBeforeMonth (y : Nat) : Nat → Nat
  | 0 => 0
  | m + 1 => daysBeforeMonth y m + daysInMonth y m

/-- toOrdinal is `date.toordinal()`: 0001-01-01 is day 1. -/
def CalDate.toOrdinal (d : CalDate) : Nat :=
  daysBeforeYear d.year + daysBeforeMonth d.year (d.month - 1) + d.day

/-- weekday is `date.weekday()`: 0 = Monday .. 6 = Sunday; 0001-01-01
was a Monday. -/
def CalDate.weekday (d : CalDate) : Nat :=
  (d.toOrdinal + 6) % 7

def PyDateTime.addDaysDT (t : PyDateTime) (n : Nat) : PyDateTime :=
  { t with date := t.date.addDays n }

/-- addMinutes1 is `+ timedelta(minutes=1)` with carry, for valid
datetimes. -/
def PyDateTime.addMinutes1 (t : PyDateTime) : PyDateTime :=
  if t.minute + 1 ≤ 59 then { t with minute := t.minute + 1 }
  else if t.hour + 1 ≤ 23 then { t with minute := 0, hour := t.hour + 1 }
  else { t with minute := 0, hour := 0, date := t.date.nextDay }

/-- addHours1 is `+ timedelta(hours=1)` with carry. -/
def PyDateTime.addHours1 (t : PyDateTime) : PyDateTime :=
  if t.hour + 1 ≤ 23 then { t with hour := t.hour + 1 }
  else { t with hour := 0, date := t.date.nextDay }

inductive CronErr where
  | valueError
  | typeError
  deriving DecidableEq, Repr

structure CronType where
  day_of_week : Option Nat
  year : Option Nat
  month : Option Nat
  day : Option Nat
  hour : Option Nat
  minute : Option Nat
  second : Option Nat
  timezone_string : String
  deriving DecidableEq, Repr

/-- generateFieldDefaults embeds `CronType._generate_field_defaults`
combined with `__update_fields_with_defaults`'s `setattr` loop,
mirroring the sequential `should_set_*` boolean assignments of
cron.py:207-248 (later assignments overwrite earlier ones, as the
shadowing `let`s do here); every computed default is written back onto
the schedule. -/
def generateFieldDefaults (c : CronType) : CronType :=
  let should_set_month := false
  let should_set_day := false
  let should_set_hour := false
  let should_set_minute := false
  let should_set_second := false
  -- if defaults['year'] is not None:
  let should_set_month := if c.year.isSome then c.month.isNone else should_set_month
  let should_set_day := if c.year.isSome then c.day.isNone else should_set_day
  -- if defaults['month'] is not None:
  let should_set_day := if c.month.isSome then c.day.isNone else should_set_day
  -- if any date field (day_of_week, year, month, day) is not None:
  let any_date_field_set :=
    c.day_of_week.isSome || c.year.isSome || c.month.isSome || c.day.isSome
  let should_set_hour := if any_date_field_set then c.hour.isNone else should_set_hour
  let should_set_minute :=
    if any_date_field_set then c.minute.isNone else should_set_minute
  let should_set_second :=
    if any_date_field_set then c.second.isNone else should_set_second
  -- if self.hour is not None:
  let should_set_minute := if c.hour.isSome then c.minute.isNone else should_set_minute
  let should_set_second := if c.hour.isSome then c.second.isNone else should_set_second
  -- if self.minute is not None:
  let should_set_second := if c.minute.isSome then c.second.isNone else should_set_second
  { c with
    month := if should_set_month then some 1 else c.month
    day := if should_set_day then some 1 else c.day
    hour := if should_set_hour then some 0 else c.hour
    minute := if should_set_minute then some 0 else c.minute
    second := if should_set_second then some 0 else c.second }

/-- secondOnlyCron is a Cron Schedule with only the `second` field
set, timezone UTC. -/
def secondOnlyCron (S : Nat) : CronType :=
  ⟨none, none, none, none, none, none, some S, "UTC"⟩

/-- getNextDateFromDayOfWeek embeds `_get_next_date_from_day_of_week`:
`today + ((day_of_week - today.weekday()) mod-into-0..6)` days. -/
def getNextDateFromDayOfWeek (c : CronType) (today : CalDate) : Option CalDate :=
  match c.day_of_week with
  | none => none
  | some w =>
      let current_weekday := today.weekday
      let number_of_days_ahead : Int := (w : Int) - (current_weekday : Int)
      let number_of_days_ahead :=
        if number_of_days_ahead < 0 then number_of_days_ahead + 7
        else number_of_days_ahead
      some (today.addDays number_of_days_ahead.toNat)

/-- getDate embeds `_get_date`: the day-of-week-derived date wins;
else, if none of day/year/month is set there is no date; else the
unset ones default from today and `date(**options)` validates the
combination (`ValueError` on e.g. Feb 31). -/
def getDate (c : CronType) (today : CalDate) : Except CronErr (Option CalDate) :=
  match getNextDateFromDayOfWeek c today with
  | some d => .ok (some d)
  | none =>
      if c.day.isNone && c.year.isNone && c.month.isNone then .ok none
      else
        let candidate : CalDate :=
          ⟨c.year.getD today.year, c.month.getD today.month, c.day.getD today.day⟩
        if candidate.isValidDate then .ok (some candidate) else .error .valueError

def isValidTime (h m s : Nat) : Bool :=
  h ≤ 23 && m ≤ 59 && s ≤ 59

/-- getTime embeds `_get_time`: no time when none of hour/minute/second
is set; else unset fields default from the current UTC instant and
`time(**options)` validates the ranges. -/
def getTime (c : CronType) (now : PyDateTime) : Except CronErr (Option PyTime) :=
  if c.hour.isNone && c.minute.isNone && c.second.isNone then .ok none
  else
    let h := c.hour.getD now.hour
    let mi := c.minute.getD now.minute
    let s := c.second.getD now.second
    if isValidTime h mi s then .ok (some ⟨h, mi, s⟩) else .error .valueError

/-- getTimestampFromFields embeds `__get_timestamp_from_fields` after
the defaults have been written back (its first statement): start from
the current UTC instant (microsecond dropped to 0, as the constructed
`datetime` never receives one), override the date part when `_get_date`
produced one and the time part when `_get_time` did; at
`timezone_string = "UTC"` the localize/convert steps are the
identity. -/
def getTimestampFromFields (c : CronType) (now : PyDateTime) :
    Except CronErr PyDateTime :=
  match getDate c now.date with
  | .error e => .error e
  | .ok next_date =>
      match getTime c now with
      | .error e => .error e
      | .ok next_time =>
          let d : CalDate :=
            match next_date with
            | some nd => nd
            | none => now.date
          let t : PyTime :=
            match next_time with
            | some nt => nt
            | none => ⟨now.hour, now.minute, now.second⟩
          .ok ⟨d, t.hour, t.minute, t.second, 0⟩

/-- getNextTimestamp embeds `__get_next_timestamp`: advance the
already-built candidate by the step of the most specific field set, in
the source's elif order; `ok none` is a returned `None` (the day
branch when `add_month_to_datetime_but_maintain_day` gives no
value). -/
def getNextTimestamp (c : CronType) (current : PyDateTime) :
    Except CronErr (Option PyDateTime) :=
  if c.year.isSome then .ok (some current)
  else if c.day_of_week.isSome then .ok (some (current.addDaysDT 7))
  else if c.month.isSome then
    let d := current.date
    if (CalDate.mk (d.year + 1) d.month d.day).isValidDate then
      .ok (some { current with date := ⟨d.year + 1, d.month, d.day⟩ })
    else .error .valueError
  else if c.day.isSome then
    match add_month_to_datetime_but_maintain_day current.date with
    | .ok (some d) => .ok (some { current with date := d })
    | .ok none => .ok none
    | .error _ => .error .valueError
  else if c.hour.isSome then .ok (some (current.addDaysDT 1))
  else if c.minute.isSome then .ok (some current.addHours1)
  else if c.second.isSome then .ok (some current.addMinutes1)
  else .ok (some current)

/-- get_next_utc_timestamp embeds `CronType.get_next_utc_timestamp`
evaluated at the frozen UTC instant `now`: build the candidate from
the fields (mutating the schedule with the generated defaults first),
keep it if it is not in the past, otherwise advance it; return it only
if it is still not in the past. A `None` from the advance step makes
the `next_timestamp >= utc_now` comparison raise `TypeError`. The
second component is the schedule object's state after the call. -/
def get_next_utc_timestamp (c : CronType) (now : PyDateTime) :
    Except CronErr (Option PyDateTime) × CronType :=
  let c' := generateFieldDefaults c
  let outcome : Except CronErr (Option PyDateTime) :=
    match getTimestampFromFields c' now with
    | .error e => .error e
    | .ok generated =>
        match (if PyDateTime.le now generated then .ok (some generated)
                else getNextTimestamp c' generated : Except CronErr (Option PyDateTime)) with
        | .error e => .error e
        | .ok none => .error .typeError
        | .ok (some next) =>
            .ok (if PyDateTime.le now next then some next else none)
  (outcome, c')

/-! ## Theorems -/

/-- C4 counterexample: the claim fails for `(quarter, year) = (1, 1)`
decremented by one quarter. The code returns `(4, 1)`, whose
linearization is `3`, not the original linearization plus the delta
(`-1`): truncation toward zero in the year computation disagrees with
the floor modulo used for the quarter. -/
theorem C4_counterexample :
    update_quarter_year_tuple (1, 1) 0 1 = (4, 1) ∧
    linearizeQuarterYear (4, 1) ≠ linearizeQuarterYear (1, 1) + (0 - 1) := by
  decide

/-- C4 (amended): `update_quarter_year_tuple` always returns a quarter
in `1..4`; and whenever the shifted linearization
`linearize (q, y) + (inc - dec)` is nonnegative (in particular for all
deltas that do not reach back before year 1 quarter 1), the result
re-linearizes to the original linearization plus the delta, i.e. the
year and quarter are div/mod-4-consistent with the original pair. For
a negative shifted linearization the year is computed with truncation
toward zero while the quarter uses floor modulo, and the equality
fails (see the counterexample). -/
theorem C4_update_quarter_year_tuple_linearization (q y inc dec : Int) :
    (1 ≤ (update_quarter_year_tuple (q, y) inc dec).1 ∧
      (update_quarter_year_tuple (q, y) inc dec).1 ≤ 4) ∧
    (0 ≤ linearizeQuarterYear (q, y) + (inc - dec) →
      linearizeQuarterYear (update_quarter_year_tuple (q, y) inc dec) =
        linearizeQuarterYear (q, y) + (inc - dec)) := by
  unfold update_quarter_year_tuple linearizeQuarterYear
  simp only
  set n : Int := (q - 1) + (y - 1) * 4 + (inc - dec) with hn
  have hmodnn : 0 ≤ Int.emod n 4 := Int.emod_nonneg n (by decide)
  have hmodlt : Int.emod n 4 < 4 := Int.emod_lt_of_pos n (by decide)
  refine ⟨⟨by omega, by omega⟩, fun hpos => ?_⟩
  have htdiv : Int.tdiv n 4 = n / 4 := Int.tdiv_eq_ediv (by omega) (by decide)
  have hdivmod : Int.emod n 4 + 4 * (n / 4) = n := Int.emod_add_ediv n 4
  rw [htdiv]
  omega

/-- C4 witness: the amended round-trip at `(3, 2020)` incremented by 4
quarters, giving `(3, 2021)` as the spec's example demands. -/
theorem C4_update_quarter_year_tuple_linearization_witness :
    (1 ≤ (update_quarter_year_tuple (3, 2020) 4 0).1 ∧
      (update_quarter_year_tuple (3, 2020) 4 0).1 ≤ 4) ∧
    linearizeQuarterYear (update_quarter_year_tuple (3, 2020) 4 0) =
      linearizeQuarterYear (3, 2020) + (4 - 0) :=
  ⟨(C4_update_quarter_year_tuple_linearization 3 2020 4 0).1,
    (C4_update_quarter_year_tuple_linearization 3 2020 4 0).2 (by decide)⟩

/-- C7 counterexample: at the valid date 9999-12-15 (the maximum
representable year, month 12), the claim demands the year-rollover
result `10000-01-15`, but `replace(year=10000, month=1)` itself raises
`ValueError` (year out of `1..9999`) and the exception escapes: the
function raises instead of returning a value. -/
theorem C7_counterexample :
    CalDate.isValidDate ⟨9999, 12, 15⟩ = true ∧
    add_month_to_datetime_but_maintain_day ⟨9999, 12, 15⟩ = .error .valueError :=
  ⟨rfl, rfl⟩

/-- C7 (amended): for every valid date (or the date part of a
datetime) `v`: if `v.month` is not 12 and the day-preserving
next-month date exists, the result is that date; if the day overflows
the next month, the result is "no value" (`None`) rather than a clamp
or a roll to month end; if `v.month` is 12 the result is January of
the next year with the day preserved — except at the maximum year
9999, where the uncaught `ValueError` from the year rollover
propagates. -/
theorem C7_add_month_to_datetime_but_maintain_day (v : CalDate)
    (hv : v.isValidDate = true) :
    add_month_to_datetime_but_maintain_day v =
      if v.month = 12 then
        if v.year = 9999 then .error .valueError
        else .ok (some ⟨v.year + 1, 1, v.day⟩)
      else if v.day ≤ daysInMonth v.year (v.month + 1) then
        .ok (some ⟨v.year, v.month + 1, v.day⟩)
      else .ok none := by
  have hfacts : ((((1 ≤ v.year ∧ v.year ≤ 9999) ∧ 1 ≤ v.month) ∧ v.month ≤ 12) ∧
      1 ≤ v.day) ∧ v.day ≤ daysInMonth v.year v.month := by
    simpa [CalDate.isValidDate, Bool.and_eq_true, decide_eq_true_eq] using hv
  obtain ⟨⟨⟨⟨⟨h1, h2⟩, h3⟩, h4⟩, h5⟩, h6⟩ := hfacts
  by_cases h12 : v.month = 12
  · have hA : v.replaceMonth (v.month + 1) = none := by
      simp [CalDate.replaceMonth, CalDate.isValidDate, h12]
    have hd31 : daysInMonth v.year 12 = 31 := rfl
    rw [h12] at h6
    rw [hd31] at h6
    by_cases hy : v.year = 9999
    · have hB : v.replaceYearMonth (v.year + 1) 1 = none := by
        simp [CalDate.replaceYearMonth, CalDate.isValidDate, hy]
      unfold add_month_to_datetime_but_maintain_day
      rw [hA, hB]
      simp [h12, hy]
    · have hB : v.replaceYearMonth (v.year + 1) 1 =
          some ⟨v.year + 1, 1, v.day⟩ := by
        have hcond : (CalDate.isValidDate ⟨v.year + 1, 1, v.day⟩) = true := by
          simp only [CalDate.isValidDate, Bool.and_eq_true, decide_eq_true_eq]
          have hd31' : daysInMonth (v.year + 1) 1 = 31 := rfl
          rw [hd31']
          omega
        simp [CalDate.replaceYearMonth, hcond]
      unfold add_month_to_datetime_but_maintain_day
      rw [hA, hB]
      simp [h12, hy]
  · by_cases hd : v.day ≤ daysInMonth v.year (v.month + 1)
    · have hA : v.replaceMonth (v.month + 1) = some ⟨v.year, v.month + 1, v.day⟩ := by
        have hcond : (CalDate.isValidDate ⟨v.year, v.month + 1, v.day⟩) = true := by
          simp only [CalDate.isValidDate, Bool.and_eq_true, decide_eq_true_eq]
          omega
        simp [CalDate.replaceMonth, hcond]
      unfold add_month_to_datetime_but_maintain_day
      rw [hA]
      simp [h12, hd]
    · have hA : v.replaceMonth (v.month + 1) = none := by
        have hcond : (CalDate.isValidDate ⟨v.year, v.month + 1, v.day⟩) = false := by
          simp only [CalDate.isValidDate, Bool.and_eq_true, decide_eq_true_eq,
            Bool.eq_false_iff, ne_eq, not_and, not_le]
          omega
        simp [CalDate.replaceMonth, hcond]
      unfold add_month_to_datetime_but_maintain_day
      rw [hA]
      simp [h12, hd]

/-- C7 witness: January 31 (a day that overflows February) returns no
value, per the amended claim. -/
theorem C7_add_month_to_datetime_but_maintain_day_witness :
    add_month_to_datetime_but_maintain_day ⟨2020, 1, 31⟩ =
      if (CalDate.mk 2020 1 31).month = 12 then
        if (CalDate.mk 2020 1 31).year = 9999 then .error .valueError
        else .ok (some ⟨2020 + 1, 1, 31⟩)
      else if (CalDate.mk 2020 1 31).day ≤ daysInMonth 2020 (1 + 1) then
        .ok (some ⟨2020, 1 + 1, 31⟩)
      else .ok none :=
  C7_add_month_to_datetime_but_maintain_day ⟨2020, 1, 31⟩ (by decide)

theorem Record.containsKey_eq_isSome (r : Record) (k : String) :
    r.containsKey k = (r.lookup k).isSome := by
  induction r with
  | nil => rfl
  | cons p rest ih =>
      by_cases h : p.1 = k <;> simp [Record.containsKey, Record.lookup, h, ih]

/-- C1 counterexample: a model with the composite primary key
`["a", "b"]` and an incoming record carrying only column `"a"`. The
claim says such a record is treated as having no primary key and is
inserted as a new row; the code instead takes the lookup path (because
`any`, not every, primary-key column is present) and raises `KeyError`
while evaluating `data["b"]` for the filter. -/
theorem C1_counterexample :
    upsert ["a", "b"] [] [("a", Value.vint 1)] = .error .keyError ∧
    upsert ["a", "b"] [] [("a", Value.vint 1)] ≠
      .ok ([[("a", Value.vint 1)]], [("a", Value.vint 1)]) :=
  ⟨rfl, by
    rw [show upsert ["a", "b"] [] [("a", Value.vint 1)] =
      .error .keyError from rfl]
    simp⟩

/-- C1 (amended): `upsert` determines whether ANY primary-key column
of the model is present in the record. If none is present, a new row
is constructed and saved. If at least one is present, it eagerly reads
every primary-key column from the record to build the lookup filter:
when all are present it looks up a matching row by primary key,
updating the first match in place or inserting a new row when there is
no match; when only some are present it raises `KeyError` instead of
inserting. In every non-raising case it returns the input record
unchanged. -/
theorem C1_upsert_any_primary_key (pk : List String) (tbl : List Record)
    (data : Record) :
    (pk.any (fun c => data.containsKey c) = false →
      upsert pk tbl data = .ok (tbl ++ [data], data)) ∧
    (∀ pairs, lookupPkValues data pk = some pairs → pk ≠ [] →
      (tbl.any (fun row => rowMatchesPk row pairs) = true →
        upsert pk tbl data = .ok (updateFirstMatch tbl pairs data, data)) ∧
      (tbl.any (fun row => rowMatchesPk row pairs) = false →
        upsert pk tbl data = .ok (tbl ++ [data], data))) ∧
    (pk.any (fun c => data.containsKey c) = true →
      lookupPkValues data pk = none →
      upsert pk tbl data = .error .keyError) := by
  refine ⟨fun hnone => ?_, fun pairs hpairs hne => ?_, fun hany hmiss => ?_⟩
  · unfold upsert
    rw [hnone]
    simp
  · have hany : pk.any (fun c => data.containsKey c) = true := by
      cases pk with
      | nil => exact absurd rfl hne
      | cons c rest =>
          cases hc : data.lookup c with
          | none => simp [lookupPkValues, hc] at hpairs
          | some v =>
              have : data.containsKey c = true := by
                rw [Record.containsKey_eq_isSome, hc]
                rfl
              simp [List.any_cons, this]
    constructor
    · intro hmatch
      unfold upsert
      rw [hany, hpairs]
      simp [hmatch]
    · intro hnomatch
      unfold upsert
      rw [hany, hpairs]
      simp [hnomatch]
  · unfold upsert
    rw [hany, hmiss]
    rfl

/-- C1 witness: with a single-column primary key `["id"]` present in
the record and an empty table, the record is inserted and echoed
back. -/
theorem C1_upsert_any_primary_key_witness :
    upsert ["id"] [] [("id", Value.vint 7), ("price", Value.vint 3)] =
      .ok ([[("id", Value.vint 7), ("price", Value.vint 3)]],
        [("id", Value.vint 7), ("price", Value.vint 3)]) :=
  (((C1_upsert_any_primary_key ["id"] []
      [("id", Value.vint 7), ("price", Value.vint 3)]).2.1
    [("id", Value.vint 7)] rfl (by simp)).2) rfl

/-- C3 counterexample: with no interval and no cron schedule, a source
whose first cycle raises a known (resp. unknown) exception does not
terminate the loop after one iteration: given fuel for two iterations
the loop is still running (`outOfFuel`), where the claim demands
`finished`. The `break` at lines 66-67 sits inside the `try` block and
is skipped when an exception is caught. -/
theorem C3_counterexample :
    (runExtract false (fun _ => CycleResult.knownExc) 0 2).2 =
      ExtractStatus.outOfFuel ∧
    (runExtract false (fun _ => CycleResult.unknownExc) 0 2).2 =
      ExtractStatus.outOfFuel ∧
    ExtractStatus.outOfFuel ≠ ExtractStatus.finished := by
  refine ⟨rfl, rfl, by decide⟩

/-- C3 (amended): with no interval and no cron schedule, the extract
loop terminates after one iteration only when that iteration's cycle
completes without an exception, yielding exactly that cycle's records;
when every cycle raises a known or unknown exception the cycle is
logged/notified and treated as empty but the loop never terminates
(it retries immediately); and when an interval or cron schedule is
configured the loop never terminates normally regardless of the
source. -/
theorem C3_extract_one_shot (source : Nat → CycleResult) :
    (∀ rs, source 0 = .yields rs →
      ∀ fuel, runExtract false source 0 (fuel + 1) = (rs, .finished)) ∧
    ((∀ j, source j = .knownExc ∨ source j = .unknownExc) →
      ∀ i fuel, runExtract false source i fuel = ([], .outOfFuel)) ∧
    (∀ i fuel, (runExtract true source i fuel).2 ≠ .finished) := by
  refine ⟨fun rs h0 fuel => ?_, fun hexc i fuel => ?_, fun i fuel => ?_⟩
  · simp [runExtract, h0]
  · induction fuel generalizing i with
    | zero => rfl
    | succ n ih =>
        rcases hexc i with h | h <;> simp [runExtract, h, ih]
  · induction fuel generalizing i with
    | zero => simp [runExtract]
    | succ n ih =>
        cases h : source i <;> simp [runExtract, h, ih]

/-- C3 witness: a source yielding two records on its first cycle
finishes after one iteration with exactly those records; a source that
always raises known exceptions leaves the no-schedule loop running
after five iterations; a scheduled loop is never `finished`. -/
theorem C3_extract_one_shot_witness :
    runExtract false (fun _ => CycleResult.yields [[("a", Value.vint 1)], []]) 0 3 =
      ([[("a", Value.vint 1)], []], .finished) ∧
    runExtract false (fun _ => CycleResult.knownExc) 0 5 = ([], .outOfFuel) ∧
    (runExtract true (fun _ => CycleResult.yields []) 0 4).2 ≠ .finished :=
  ⟨(C3_extract_one_shot (fun _ => CycleResult.yields [[("a", Value.vint 1)], []])).1
      [[("a", Value.vint 1)], []] rfl 2,
    (C3_extract_one_shot (fun _ => CycleResult.knownExc)).2.1
      (fun _ => Or.inl rfl) 0 5,
    (C3_extract_one_shot (fun _ => CycleResult.yields [])).2.2 0 4⟩

/-- C9: `transform(None)` with an empty transformer chain yields
exactly two items, both absent: the placeholder yielded by the
`if data is None` branch (which does not return) followed by the
untransformed `None` that flowed through the empty chain. No fatal
exception propagates. -/
theorem C9_transform_none_yields_two_absent :
    transform [] none = ([TVal.vnone, TVal.vnone], false) := rfl

/-- C5: for a Date-Based Source with `start_date = D`, `end_date = E`
and batch size `b`: when `E < D`, `get()` yields nothing, the query
delegate is never invoked and `start_date` is unchanged; otherwise the
delegate is invoked exactly once with `(D, E)`, exactly its records
are yielded, and on completion `start_date` becomes `D + b` (with
`b = 7` this is `D + 7` days). -/
theorem C5_date_source_get (D E b today : Int)
    (delegate : Int → Int → List Record) :
    (E < D →
      dateSourceGet ⟨some D, some E, b⟩ today delegate =
        ([], [], ⟨some D, some E, b⟩)) ∧
    (D ≤ E →
      dateSourceGet ⟨some D, some E, b⟩ today delegate =
        ([(D, E)], delegate D E, ⟨some (D + b), some E, b⟩)) := by
  constructor
  · intro h
    unfold dateSourceGet getNextStartDate getNextEndDate update_date
    simp only
    rw [if_pos (by omega)]
  · intro h
    unfold dateSourceGet getNextStartDate getNextEndDate update_date
    simp only
    rw [if_neg (by omega)]
    norm_num

/-- C5 witness: start `D = 100`, end `E = 103`, batch size 7: the
delegate is invoked with exactly `(100, 103)` and `start_date` ends at
`107 = D + 7`; and for `E = 99 < D` nothing is yielded. -/
theorem C5_date_source_get_witness :
    dateSourceGet ⟨some 100, some 103, 7⟩ 0
        (fun a b => [[("s", Value.vint a), ("e", Value.vint b)]]) =
      ([(100, 103)], [[("s", Value.vint 100), ("e", Value.vint 103)]],
        ⟨some 107, some 103, 7⟩) ∧
    dateSourceGet ⟨some 100, some 99, 7⟩ 0
        (fun a b => [[("s", Value.vint a), ("e", Value.vint b)]]) =
      ([], [], ⟨some 100, some 99, 7⟩) :=
  ⟨(C5_date_source_get 100 103 7 0
      (fun a b => [[("s", Value.vint a), ("e", Value.vint b)]])).2 (by decide),
    (C5_date_source_get 100 99 7 0
      (fun a b => [[("s", Value.vint a), ("e", Value.vint b)]])).1 (by decide)⟩

/-- C6: per REST API poll, exactly one GET is issued unless the first
response's status is 400, 401 or 403, in which case `_authenticate` is
called once and the GET retried exactly once (at most two GETs). If
the possibly-retried response is not successful (status >= 400) the
poll raises a request error carrying that response's status code and
body; if it is successful, the JSON body — unwrapped via
`response_data_key` when configured — is yielded as one record when it
is a single object and element-by-element when it is a list. -/
theorem C6_rest_query_data_source (response_data_key : Option String)
    (r1 r2 : HttpResponse) :
    (isAuthRetryStatus r1.status_code = false →
      restQueryDataSource response_data_key r1 r2 =
        (1, false,
          if r1.status_code < 400 then
            extractListFromResponse response_data_key r1.json
          else .error (.requestError r1.status_code r1.text))) ∧
    (isAuthRetryStatus r1.status_code = true →
      restQueryDataSource response_data_key r1 r2 =
        (2, true,
          if r2.status_code < 400 then
            extractListFromResponse response_data_key r2.json
          else .error (.requestError r2.status_code r2.text))) ∧
    (∀ fields, extractListFromResponse none (.jobj fields) =
      .ok [Json.jobj fields]) ∧
    (∀ l, extractListFromResponse none (.jarr l) = .ok l) ∧
    (∀ k fields, extractListFromResponse (some k) (.jobj fields) =
      (match objGet fields k with
        | .jobj inner => .ok [Json.jobj inner]
        | .jarr l => .ok l
        | .jstr s => .ok (s.data.map (fun c => Json.jstr (String.mk [c])))
        | _ => .error .typeError)) := by
  refine ⟨fun h => ?_, fun h => ?_, fun fields => rfl, fun l => rfl,
    fun k fields => ?_⟩
  · unfold restQueryDataSource
    rw [h]
    rfl
  · unfold restQueryDataSource
    rw [h]
    rfl
  · unfold extractListFromResponse
    cases h : objGet fields k <;> simp [h]

/-- C6 witness: a first GET answered 401 followed by a successful
retry carrying `{"data": [...]}` issues two GETs, authenticates once,
and yields the unwrapped list element-by-element; instantiated from
the poll theorem at concrete responses. -/
theorem C6_rest_query_data_source_witness :
    restQueryDataSource (some "data")
        ⟨401, "unauthorized", .jnull⟩
        ⟨200, "", .jobj [("data", .jarr [.jobj [("a", .jnum 1)]])]⟩ =
      (2, true, .ok [Json.jobj [("a", .jnum 1)]]) := by
  have h := (C6_rest_query_data_source (some "data")
      ⟨401, "unauthorized", .jnull⟩
      ⟨200, "", .jobj [("data", .jarr [.jobj [("a", .jnum 1)]])]⟩).2.1 (by decide)
  rw [h]
  rfl

theorem natDigit_ne_slash (n : Nat) : natDigit n ≠ '/' := by
  unfold natDigit
  have h : n % 10 < 10 := Nat.mod_lt _ (by norm_num)
  set k := n % 10 with hk
  interval_cases k <;> decide

theorem tryCandidates_eq_none {α β : Type} (l : List α) (f : α → Option β)
    (h : ∀ a ∈ l, f a = none) : tryCandidates l f = none := by
  induction l with
  | nil => rfl
  | cons a rest ih =>
      unfold tryCandidates
      rw [h a (by simp)]
      exact ih (fun b hb => h b (by simp [hb]))

/-- monthCandidates never consumes past the second character: every
candidate's remaining input is the tail after one or two characters. -/
theorem monthCandidates_tails (x1 x2 x3 : Char) (xs : List Char) (p : Nat × List Char)
    (hp : p ∈ monthCandidates (x1 :: x2 :: x3 :: xs)) :
    p.2 = x3 :: xs ∨ p.2 = x2 :: x3 :: xs := by
  unfold monthCandidates at hp
  simp only [List.mem_append] at hp
  rcases hp with (h | h) | h <;> split_ifs at h <;> simp_all

/-- parseMDY fails on every `strftime("%Y-%m-%d")` output: after `%m`
consumes one or two digits of the four-digit year, the pattern demands
a literal `/` but the next character is another digit. -/
theorem parseMDY_strftime_eq_none (d : CalDate) :
    parseMDY (strftime_ymd d).data = none := by
  unfold strftime_ymd parseMDY
  apply tryCandidates_eq_none
  intro p hp
  have h := monthCandidates_tails (natDigit (d.year / 1000)) (natDigit (d.year / 100))
    (natDigit (d.year / 10)) _ p hp
  rcases h with h | h <;> rw [h] <;> simp [natDigit_ne_slash]

theorem strptime_strftime_eq_none (d : CalDate) :
    strptime_mdy (strftime_ymd d) = none := by
  unfold strptime_mdy
  rw [parseMDY_strftime_eq_none]

theorem Record.lookup_setField (r : Record) (k : String) (v : Value) :
    (r.setField k v).lookup k = some v := by
  induction r with
  | nil => simp [Record.setField, Record.lookup]
  | cons p rest ih =>
      by_cases h : p.1 = k <;> simp [Record.setField, Record.lookup, h, ih]

/-- C2 counterexample: on the record `{"Date": "01/31/2020"}` (a value
in the default source pattern `%m/%d/%Y`), one application of
`DatetimeTransformer.run` is defined and reformats the field, but
applying `run` twice raises `ValueError` — the reformatted value
`"2020-01-31"` does not parse under `%m/%d/%Y` — so
`run(run(r)) ≠ run(r)` and the Datetime Transformer is not
idempotent. -/
theorem C2_counterexample :
    datetimeTransformerRun [("Date", Value.vstr "01/31/2020")] =
      .ok [("Date", Value.vstr "2020-01-31")] ∧
    (datetimeTransformerRun [("Date", Value.vstr "01/31/2020")]).bind
        datetimeTransformerRun = .error .valueError ∧
    (Except.error TransformErr.valueError : Except TransformErr Record) ≠
      .ok [("Date", Value.vstr "2020-01-31")] :=
  ⟨rfl, rfl, by simp⟩

/-- C2 (amended): the Datetime Transformer's `run` is a pure function
of the incoming record, leaving the input unmutated (it operates on
`data.copy()`). It is idempotent exactly on records where the
configured date field is absent or `None` (there `run` is the
identity); whenever the field is present with a value that parses in
the source pattern, `run` succeeds and rewrites the field to the
destination pattern, but a second application raises `ValueError`, so
`run(run(r)) = run(r)` fails on every record the transformer actually
reformats. -/
theorem C2_datetime_transformer_idempotence (r : Record) :
    (r.lookup "Date" = none →
      datetimeTransformerRun r = .ok r ∧
      (datetimeTransformerRun r).bind datetimeTransformerRun =
        datetimeTransformerRun r) ∧
    (r.lookup "Date" = some Value.vnone →
      datetimeTransformerRun r = .ok r ∧
      (datetimeTransformerRun r).bind datetimeTransformerRun =
        datetimeTransformerRun r) ∧
    (∀ s d, r.lookup "Date" = some (Value.vstr s) → strptime_mdy s = some d →
      datetimeTransformerRun r =
        .ok (r.setField "Date" (Value.vstr (strftime_ymd d))) ∧
      (datetimeTransformerRun r).bind datetimeTransformerRun =
        .error .valueError) := by
  refine ⟨fun h => ?_, fun h => ?_, fun s d hs hd => ?_⟩
  · have h1 : datetimeTransformerRun r = .ok r := by
      simp only [datetimeTransformerRun]
      rw [h]
    refine ⟨h1, ?_⟩
    rw [h1]
    exact h1
  · have h1 : datetimeTransformerRun r = .ok r := by
      simp only [datetimeTransformerRun]
      rw [h]
    refine ⟨h1, ?_⟩
    rw [h1]
    exact h1
  · have h1 : datetimeTransformerRun r =
        .ok (r.setField "Date" (Value.vstr (strftime_ymd d))) := by
      simp only [datetimeTransformerRun, change_datetime_format, hs, hd]
    refine ⟨h1, ?_⟩
    rw [h1]
    show datetimeTransformerRun (r.setField "Date" (Value.vstr (strftime_ymd d))) =
      .error .valueError
    simp only [datetimeTransformerRun, change_datetime_format,
      Record.lookup_setField, strptime_strftime_eq_none]

/-- C2 witness: the amended theorem applied to a record without the
date field (identity, hence idempotent there) and to the concrete
parseable record from the counterexample scenario. -/
theorem C2_datetime_transformer_idempotence_witness :
    (datetimeTransformerRun [("x", Value.vint 5)] = .ok [("x", Value.vint 5)] ∧
      (datetimeTransformerRun [("x", Value.vint 5)]).bind datetimeTransformerRun =
        datetimeTransformerRun [("x", Value.vint 5)]) ∧
    (datetimeTransformerRun [("Date", Value.vstr "03/09/2020")]).bind
        datetimeTransformerRun = .error .valueError :=
  ⟨(C2_datetime_transformer_idempotence [("x", Value.vint 5)]).1 rfl,
    ((C2_datetime_transformer_idempotence [("Date", Value.vstr "03/09/2020")]).2.2
      "03/09/2020" ⟨2020, 3, 9⟩ rfl rfl).2⟩

theorem natLexLe_refl (l : List Nat) : natLexLe l l = true := by
  induction l with
  | nil => rfl
  | cons a as ih => simp [natLexLe, ih]

/-- C8 counterexample: a schedule with only `second = 30`, evaluated
at the frozen instant 2020-01-01 12:05:30.000000 UTC — current second
equal to 30, so `>= S` — returns that very instant: second 30 in the
CURRENT minute (minute 5), not the next minute as the claim demands.
The candidate built from the fields equals `now` (both have
microsecond 0), so `generated_timestamp >= utc_now` holds and no
advance happens. -/
theorem C8_counterexample :
    get_next_utc_timestamp (secondOnlyCron 30) ⟨⟨2020, 1, 1⟩, 12, 5, 30, 0⟩ =
      (.ok (some ⟨⟨2020, 1, 1⟩, 12, 5, 30, 0⟩), secondOnlyCron 30) ∧
    (30 ≤ (⟨⟨2020, 1, 1⟩, 12, 5, 30, 0⟩ : PyDateTime).second ∧
      (⟨⟨2020, 1, 1⟩, 12, 5, 30, 0⟩ : PyDateTime).minute = 5) :=
  ⟨rfl, by decide⟩

/-- C8 (amended): for a Cron Schedule with only `second = S` (timezone
UTC) evaluated at a frozen instant: when the current second is `< S`
the result is the timestamp with second `= S` in the current minute;
when the instant is strictly past that candidate — current second
`> S`, or `= S` with a nonzero sub-second fraction — the candidate is
advanced by one minute (second being the most specific field set) and
the result is second `= S` in the next minute; but at an instant with
second exactly `S` and microsecond 0 the candidate equals the instant
itself and is returned un-advanced, i.e. in the current minute. -/
theorem C8_cron_second_only_schedule (S : Nat) (now : PyDateTime)
    (hS : S ≤ 59) (hh : now.hour ≤ 23) (hm : now.minute ≤ 59) :
    (now.second < S →
      get_next_utc_timestamp (secondOnlyCron S) now =
        (.ok (some ⟨now.date, now.hour, now.minute, S, 0⟩), secondOnlyCron S)) ∧
    (S < now.second ∨ (now.second = S ∧ 0 < now.microsecond) →
      get_next_utc_timestamp (secondOnlyCron S) now =
        (.ok (some (PyDateTime.addMinutes1 ⟨now.date, now.hour, now.minute, S, 0⟩)),
          secondOnlyCron S)) ∧
    (now.second = S → now.microsecond = 0 →
      get_next_utc_timestamp (secondOnlyCron S) now =
        (.ok (some ⟨now.date, now.hour, now.minute, S, 0⟩), secondOnlyCron S)) := by
  have hv : isValidTime now.hour now.minute S = true := by
    simp only [isValidTime, Bool.and_eq_true, decide_eq_true_eq]
    omega
  have hdef : generateFieldDefaults (secondOnlyCron S) = secondOnlyCron S := rfl
  have hfields : getTimestampFromFields (secondOnlyCron S) now =
      .ok ⟨now.date, now.hour, now.minute, S, 0⟩ := by
    simp [getTimestampFromFields, getDate, getNextDateFromDayOfWeek, getTime,
      secondOnlyCron, hv]
  refine ⟨fun hlt => ?_, fun hgt => ?_, fun heq hmu => ?_⟩
  · have hle : PyDateTime.le now ⟨now.date, now.hour, now.minute, S, 0⟩ = true := by
      simp [PyDateTime.le, PyDateTime.fieldList, natLexLe, Nat.ne_of_lt hlt, hlt]
    simp [get_next_utc_timestamp, hdef, hfields, hle]
  · have hnle : PyDateTime.le now ⟨now.date, now.hour, now.minute, S, 0⟩ = false := by
      rcases hgt with h | ⟨h1, h2⟩
      · have hne : now.second ≠ S := ne_of_gt h
        have hnlt : ¬ now.second < S := by omega
        simp [PyDateTime.le, PyDateTime.fieldList, natLexLe, hne, hnlt]
      · have hmu0 : now.microsecond ≠ 0 := by omega
        simp [PyDateTime.le, PyDateTime.fieldList, natLexLe, h1, hmu0]
    have hnext : getNextTimestamp (secondOnlyCron S)
        ⟨now.date, now.hour, now.minute, S, 0⟩ =
        .ok (some (PyDateTime.addMinutes1 ⟨now.date, now.hour, now.minute, S, 0⟩)) :=
      rfl
    have hle2 : PyDateTime.le now
        (PyDateTime.addMinutes1 ⟨now.date, now.hour, now.minute, S, 0⟩) = true := by
      by_cases hm1 : now.minute + 1 ≤ 59
      · have ha : PyDateTime.addMinutes1 ⟨now.date, now.hour, now.minute, S, 0⟩ =
            ⟨now.date, now.hour, now.minute + 1, S, 0⟩ := by
          simp [PyDateTime.addMinutes1, hm1]
        have hne : now.minute ≠ now.minute + 1 := by omega
        rw [ha]
        simp [PyDateTime.le, PyDateTime.fieldList, natLexLe, hne, Nat.lt_succ_self]
      · by_cases hh1 : now.hour + 1 ≤ 23
        · have ha : PyDateTime.addMinutes1 ⟨now.date, now.hour, now.minute, S, 0⟩ =
              ⟨now.date, now.hour + 1, 0, S, 0⟩ := by
            simp [PyDateTime.addMinutes1, hm1, hh1]
          have hne : now.hour ≠ now.hour + 1 := by omega
          rw [ha]
          simp [PyDateTime.le, PyDateTime.fieldList, natLexLe, hne, Nat.lt_succ_self]
        · have ha : PyDateTime.addMinutes1 ⟨now.date, now.hour, now.minute, S, 0⟩ =
              ⟨now.date.nextDay, 0, 0, S, 0⟩ := by
            simp [PyDateTime.addMinutes1, hm1, hh1]
          rw [ha]
          by_cases hd1 : now.date.day < daysInMonth now.date.year now.date.month
          · have hb : now.date.nextDay = ⟨now.date.year, now.date.month,
                now.date.day + 1⟩ := by
              simp [CalDate.nextDay, hd1]
            have hne : now.date.day ≠ now.date.day + 1 := by omega
            rw [hb]
            simp [PyDateTime.le, PyDateTime.fieldList, natLexLe, hne, Nat.lt_succ_self]
          · by_cases hd2 : now.date.month < 12
            · have hb : now.date.nextDay = ⟨now.date.year, now.date.month + 1, 1⟩ := by
                simp [CalDate.nextDay, hd1, hd2]
              have hne : now.date.month ≠ now.date.month + 1 := by omega
              rw [hb]
              simp [PyDateTime.le, PyDateTime.fieldList, natLexLe, hne,
                Nat.lt_succ_self]
            · have hb : now.date.nextDay = ⟨now.date.year + 1, 1, 1⟩ := by
                simp [CalDate.nextDay, hd1, hd2]
              have hne : now.date.year ≠ now.date.year + 1 := by omega
              rw [hb]
              simp [PyDateTime.le, PyDateTime.fieldList, natLexLe, hne,
                Nat.lt_succ_self]
    simp [get_next_utc_timestamp, hdef, hfields, hnle, hnext, hle2]
  · have hgeneq : (⟨now.date, now.hour, now.minute, S, 0⟩ : PyDateTime) = now := by
      obtain ⟨d, a, b, s, u⟩ := now
      simp only at heq hmu
      rw [heq, hmu]
    rw [hgeneq] at hfields ⊢
    have hle : PyDateTime.le now now = true := natLexLe_refl _
    simp [get_next_utc_timestamp, hdef, hfields, hle]

/-- C8 witness: the amended behavior at concrete frozen instants with
`S = 30`: second 10 (< 30) gives 12:05:30 (current minute); second 45
(>= 30, strictly past the candidate) gives 12:06:30 (next minute). -/
theorem C8_cron_second_only_schedule_witness :
    get_next_utc_timestamp (secondOnlyCron 30) ⟨⟨2020, 1, 1⟩, 12, 5, 10, 123⟩ =
      (.ok (some ⟨⟨2020, 1, 1⟩, 12, 5, 30, 0⟩), secondOnlyCron 30) ∧
    get_next_utc_timestamp (secondOnlyCron 30) ⟨⟨2020, 1, 1⟩, 12, 5, 45, 123⟩ =
      (.ok (some (PyDateTime.addMinutes1 ⟨⟨2020, 1, 1⟩, 12, 5, 30, 0⟩)),
        secondOnlyCron 30) :=
  ⟨(C8_cron_second_only_schedule 30 ⟨⟨2020, 1, 1⟩, 12, 5, 10, 123⟩
      (by decide) (by decide) (by decide)).1 (by decide),
    (C8_cron_second_only_schedule 30 ⟨⟨2020, 1, 1⟩, 12, 5, 45, 123⟩
      (by decide) (by decide) (by decide)).2.1 (Or.inl (by decide))⟩

/-- C10: every call to `get_next_utc_timestamp` writes the generated
field defaults back onto the schedule object itself (the returned
state is `generateFieldDefaults` of the old one, whatever the
outcome); the write-back leaves every field the caller set — and
`day_of_week`, `year`, `timezone_string` always — unchanged, while
each finer unset field becomes its start-of-period value: `month` 1
when `year` is set, `day` 1 when `year` or `month` is set,
`hour`/`minute`/`second` 0 when any coarser of
{date field, hour, minute} is set; and the write-back is idempotent,
so the defaults are permanent across subsequent calls. -/
theorem C10_get_next_utc_timestamp_writes_defaults (c : CronType) (now : PyDateTime) :
    (get_next_utc_timestamp c now).2 = generateFieldDefaults c ∧
    (generateFieldDefaults c).day_of_week = c.day_of_week ∧
    (generateFieldDefaults c).year = c.year ∧
    (generateFieldDefaults c).timezone_string = c.timezone_string ∧
    (generateFieldDefaults c).month =
      (if c.year.isSome && c.month.isNone then some 1 else c.month) ∧
    (generateFieldDefaults c).day =
      (if (c.year.isSome || c.month.isSome) && c.day.isNone then some 1
        else c.day) ∧
    (generateFieldDefaults c).hour =
      (if (c.day_of_week.isSome || c.year.isSome || c.month.isSome || c.day.isSome)
          && c.hour.isNone then some 0 else c.hour) ∧
    (generateFieldDefaults c).minute =
      (if (c.day_of_week.isSome || c.year.isSome || c.month.isSome || c.day.isSome
            || c.hour.isSome) && c.minute.isNone then some 0 else c.minute) ∧
    (generateFieldDefaults c).second =
      (if (c.day_of_week.isSome || c.year.isSome || c.month.isSome || c.day.isSome
            || c.hour.isSome || c.minute.isSome) && c.second.isNone then some 0
        else c.second) ∧
    generateFieldDefaults (generateFieldDefaults c) = generateFieldDefaults c := by
  obtain ⟨dow, yr, mo, dy, hr, mi, se, tz⟩ := c
  refine ⟨rfl, rfl, rfl, rfl, ?_, ?_, ?_, ?_, ?_, ?_⟩ <;>
    cases dow <;> cases yr <;> cases mo <;> cases dy <;> cases hr <;> cases mi <;>
      cases se <;> rfl

end Judah
